import Mathlib

/-!
Shallow embedding of the two front-end components of the repository:

* ActionToolbar (src/frontend/components/action-toolbar.tsx): the
  handleCallClient, handleSendEmail and handleScheduleMeeting handlers and
  the toolbar buttons.  Stateful behaviour (toasts, the single fetch, the
  isLoading flag) is modelled as an explicit ordered event trace; the
  outcome of the awaited fetch is passed in as a parameter.

* ChatInterface (src/unnamed/part_000): the message list renderer with
  approve / modify / reject buttons, status badges and the empty-state
  placeholder, modelled as a pure function from the props to a view value.

JavaScript truthiness on optional strings is modelled by taking the empty
string together with Option none as falsy.
-/

namespace Morgan

/-- Model of the JS a-or-b fallback on strings: the empty string is falsy. -/
def jsOr (s dflt : String) : String :=
  if s = "" then dflt else s

/-- Model of the JS a-or-b fallback on an optional string: an absent value
and the empty string are both falsy. -/
def jsOrOpt (o : Option String) (dflt : String) : String :=
  match o with
  | none => dflt
  | some s => jsOr s dflt

/-- The metadata prop of the toolbar (ContextMetadata in lib/types).  Only
client_name and phone are read by the component; a missing field is
modelled by the empty string, which JS treats as falsy exactly like an
absent field. -/
structure ContextMetadata where
  client_name : String
  phone : String
  deriving Repr, DecidableEq

/-- An HTTP request as built by handleCallClient: the method, the full URL
and the three JSON body fields. -/
structure HttpRequest where
  method : String
  url : String
  body_client_name : String
  body_phone : String
  body_reason : String
  deriving Repr, DecidableEq

/-- A toast notification shown through useToast. -/
structure Toast where
  title : String
  description : String
  destructive : Bool
  deriving Repr, DecidableEq

/-- Outcome of the awaited fetch: the promise rejects (carrying the message
of the thrown value when it is an Error, none otherwise), or a response
arrives with its ok flag, status code and optional message field of the
JSON payload (none models an absent or falsy data.message). -/
inductive FetchOutcome where
  | reject (err : Option String)
  | response (ok : Bool) (status : Nat) (message : Option String)
  deriving Repr, DecidableEq

/-- Observable events of a handler run, in program order. -/
inductive Ev where
  | setLoading (b : Bool)
  | httpRequest (r : HttpRequest)
  | showToast (t : Toast)
  deriving Repr, DecidableEq

/-- Result of running a handler: the ordered events it performed and
whether an exception escaped to the caller. -/
structure HandlerRun where
  events : List Ev
  threw : Bool
  deriving Repr, DecidableEq

/-- The toast shown when the client_name precondition fails. -/
def missingInfoToast : Toast :=
  ⟨"Missing Information", "Client information not available", true⟩

/-- Model of process.env.NEXT_PUBLIC_API_URL or the localhost default. -/
def resolveApiUrl (env : Option String) : String :=
  jsOrOpt env "http://localhost:8000"

/-- Description string of the caught error: error.message when the caught
value is an Error, the fixed fallback otherwise. -/
def errDescription (err : Option String) : String :=
  match err with
  | some msg => msg
  | none => "Unknown error"

/-- The POST request handleCallClient builds from the metadata and the
environment variable. -/
def mkCallRequest (md : ContextMetadata) (env : Option String) : HttpRequest :=
  ⟨"POST", resolveApiUrl env ++ "/call_client",
    md.client_name, jsOr md.phone "555-0100", "Case review follow-up"⟩

/-- Embedding of handleCallClient from action-toolbar.tsx.  The guard
rejects a null metadata prop or a falsy client_name with a destructive
toast and returns before touching isLoading.  Otherwise isLoading is set,
the fetch is issued, and the try block turns a rejection or a non-ok
response into a destructive Call Failed toast while the finally clause
resets isLoading; no path rethrows. -/
def handleCallClient (metadata : Option ContextMetadata) (env : Option String)
    (fo : FetchOutcome) : HandlerRun :=
  match metadata with
  | none => ⟨[Ev.showToast missingInfoToast], false⟩
  | some md =>
    if md.client_name = "" then
      ⟨[Ev.showToast missingInfoToast], false⟩
    else
      let req := mkCallRequest md env
      match fo with
      | FetchOutcome.reject err =>
          ⟨[Ev.setLoading true, Ev.httpRequest req,
            Ev.showToast ⟨"Call Failed", errDescription err, true⟩,
            Ev.setLoading false], false⟩
      | FetchOutcome.response ok status msg =>
          if ok then
            ⟨[Ev.setLoading true, Ev.httpRequest req,
              Ev.showToast ⟨"Call Initiated",
                jsOrOpt msg ("Calling " ++ md.client_name ++ "..."), false⟩,
              Ev.setLoading false], false⟩
          else
            ⟨[Ev.setLoading true, Ev.httpRequest req,
              Ev.showToast ⟨"Call Failed", "API error: " ++ toString status, true⟩,
              Ev.setLoading false], false⟩

/-- Embedding of handleSendEmail: one toast, nothing else. -/
def handleSendEmail : List Ev :=
  [Ev.showToast ⟨"Email Draft Created", "Opening email client...", false⟩]

/-- Embedding of handleScheduleMeeting: one toast, nothing else. -/
def handleScheduleMeeting : List Ev :=
  [Ev.showToast ⟨"Calendar Opened", "Select a meeting time...", false⟩]

/-- A rendered toolbar button: its label and its disabled attribute. -/
structure ButtonView where
  label : String
  disabled : Bool
  deriving Repr, DecidableEq

/-- The three buttons rendered by ActionToolbar.  Only the Call Client
button carries a disabled prop, bound to isLoading. -/
def ActionToolbar (isLoading : Bool) : List ButtonView :=
  [⟨"Call Client", isLoading⟩, ⟨"Send Email", false⟩, ⟨"Schedule Meeting", false⟩]

/-- The HTTP requests among a list of events. -/
def requestsOf (evs : List Ev) : List HttpRequest :=
  evs.filterMap fun e =>
    match e with
    | Ev.httpRequest r => some r
    | _ => none

/-- The toasts among a list of events. -/
def toastsOf (evs : List Ev) : List Toast :=
  evs.filterMap fun e =>
    match e with
    | Ev.showToast t => some t
    | _ => none

/-- The isLoading assignments among a list of events, in order. -/
def loadingOf (evs : List Ev) : List Bool :=
  evs.filterMap fun e =>
    match e with
    | Ev.setLoading b => some b
    | _ => none

/-- The role of a chat message. -/
inductive Role where
  | AI
  | Attorney
  | System
  deriving Repr, DecidableEq

/-- The status of a chat message. -/
inductive MsgStatus where
  | pending
  | approved
  | rejected
  | modified
  deriving Repr, DecidableEq

/-- The three approval actions. -/
inductive ActionKind where
  | approve
  | modify
  | reject
  deriving Repr, DecidableEq

/-- A chat message as received in the messages prop of ChatInterface.
Optional fields keep their optionality; a present but empty agentName is
falsy in JS and is therefore distinguished from a non-empty one in the
renderer.  The timestamp is abstracted to a Nat; its locale formatting is
a fixed function of that value. -/
structure Message where
  id : String
  role : Role
  content : String
  timestamp : Nat
  agentName : Option String
  confidence : Option ℚ
  requiresApproval : Option Bool
  status : Option MsgStatus
  deriving Repr, DecidableEq

/-- The avatar background class chosen from the role. -/
def avatarClass (r : Role) : String :=
  match r with
  | Role.AI => "bg-[#D71920]"
  | Role.System => "bg-[#8B0000]"
  | Role.Attorney => "bg-[#FFD700]"

/-- The bubble class chosen from the role. -/
def bubbleClass (r : Role) : String :=
  match r with
  | Role.AI => "bg-[#FFF8DC] text-gray-900"
  | Role.System => "bg-[#8B0000]/20 border-2 border-[#FFD700]/50 text-white backdrop-blur-sm"
  | Role.Attorney => "bg-[#FFD700] text-[#8B0000]"

/-- The uppercase badge text of a status. -/
def statusText (s : MsgStatus) : String :=
  match s with
  | MsgStatus.pending => "PENDING"
  | MsgStatus.approved => "APPROVED"
  | MsgStatus.rejected => "REJECTED"
  | MsgStatus.modified => "MODIFIED"

/-- The badge class of a status. -/
def badgeClass (s : MsgStatus) : String :=
  match s with
  | MsgStatus.approved => "bg-green-600 text-white"
  | MsgStatus.rejected => "bg-red-600 text-white"
  | _ => "bg-[#FFD700] text-[#8B0000]"

/-- The agent header block: the agent name together with the rounded
confidence percentage when confidence is not undefined. -/
structure AgentHeader where
  name : String
  confidencePct : Option Int
  deriving Repr, DecidableEq

/-- A rendered approve / modify / reject button: its label, the message id
bound into its onClick closure, and the action it dispatches. -/
structure ActionButton where
  label : String
  targetId : String
  action : ActionKind
  deriving Repr, DecidableEq

/-- A rendered status badge. -/
structure StatusBadge where
  text : String
  cls : String
  deriving Repr, DecidableEq

/-- The DOM produced for one message: key, role-derived classes, content,
timestamp text, the conditional agent header, the conditional approval
button row and the conditional status badge. -/
structure RenderedMessage where
  key : String
  avatarCls : String
  bubbleCls : String
  content : String
  timeText : Nat
  agentHeader : Option AgentHeader
  approvalActions : Option (List ActionButton)
  statusBadge : Option StatusBadge
  deriving Repr, DecidableEq

/-- Rendering of one message by ChatInterface.  The agent header appears
when agentName is truthy; the button row appears exactly when
requiresApproval is true and status is the string pending; the badge
appears exactly when status is present and different from pending. -/
def renderMessage (m : Message) : RenderedMessage :=
  ⟨m.id, avatarClass m.role, bubbleClass m.role, m.content, m.timestamp,
    (match m.agentName with
     | none => none
     | some n =>
         if n = "" then none
         else some ⟨n, m.confidence.map (fun c => round (c * 100))⟩),
    (if m.requiresApproval = some true ∧ m.status = some MsgStatus.pending then
       some [⟨"Approve", m.id, ActionKind.approve⟩,
             ⟨"Modify", m.id, ActionKind.modify⟩,
             ⟨"Reject", m.id, ActionKind.reject⟩]
     else none),
    (match m.status with
     | none => none
     | some s => if s = MsgStatus.pending then none else some ⟨statusText s, badgeClass s⟩)⟩

/-- The whole view of ChatInterface: one rendered item per message and the
empty-state placeholder (Awaiting case file upload...) exactly when the
list is empty. -/
structure ChatView where
  items : List RenderedMessage
  placeholder : Bool
  deriving Repr, DecidableEq

/-- Embedding of the ChatInterface component as a pure function of its
messages prop. -/
def ChatInterface (messages : List Message) : ChatView :=
  ⟨messages.map renderMessage, messages.isEmpty⟩

/-- Embedding of handleAction: the optional chaining call of the
onMessageAction prop.  The Bool argument records whether the prop was
supplied; the result is the list of callback invocations performed. -/
def handleAction (onMessageAction : Bool) (messageId : String) (action : ActionKind) :
    List (String × ActionKind) :=
  if onMessageAction then [(messageId, action)] else []

/-- Clicking a rendered approval button runs handleAction on the id and
action bound into its closure. -/
def clickActionButton (onMessageAction : Bool) (b : ActionButton) :
    List (String × ActionKind) :=
  handleAction onMessageAction b.targetId b.action

/-- Helper: once the client_name guard passes, every run of
handleCallClient has the same four-event shape and never rethrows. -/
theorem handleCallClient_events (md : ContextMetadata) (env : Option String)
    (fo : FetchOutcome) (h : ¬ md.client_name = "") :
    (handleCallClient (some md) env fo).threw = false ∧
      ∃ t, (handleCallClient (some md) env fo).events =
        [Ev.setLoading true, Ev.httpRequest (mkCallRequest md env),
         Ev.showToast t, Ev.setLoading false] := by
  cases fo with
  | reject err =>
      refine ⟨?_, ⟨"Call Failed", errDescription err, true⟩, ?_⟩ <;>
        simp [handleCallClient, h]
  | response ok status msg =>
      cases ok with
      | true =>
          refine ⟨?_, ⟨"Call Initiated",
            jsOrOpt msg ("Calling " ++ md.client_name ++ "..."), false⟩, ?_⟩ <;>
            simp [handleCallClient, h]
      | false =>
          refine ⟨?_, ⟨"Call Failed", "API error: " ++ toString status, true⟩, ?_⟩ <;>
            simp [handleCallClient, h]

/-- Claim C1: for every metadata with a non-empty client_name, running
handleCallClient issues exactly one HTTP request, a POST to /call_client
under the resolved API base URL, whose JSON body carries the client_name,
phone and reason fields. -/
theorem call_client_posts_once (md : ContextMetadata) (env : Option String)
    (fo : FetchOutcome) (h : md.client_name ≠ "") :
    requestsOf (handleCallClient (some md) env fo).events = [mkCallRequest md env] ∧
      (mkCallRequest md env).method = "POST" ∧
      (mkCallRequest md env).url = resolveApiUrl env ++ "/call_client" ∧
      (mkCallRequest md env).body_client_name = md.client_name ∧
      (mkCallRequest md env).body_phone = jsOr md.phone "555-0100" ∧
      (mkCallRequest md env).body_reason = "Case review follow-up" := by
  obtain ⟨-, t, hev⟩ := handleCallClient_events md env fo h
  rw [hev]
  exact ⟨rfl, rfl, rfl, rfl, rfl, rfl⟩

/-- Witness for C1 at a concrete metadata, environment and outcome. -/
theorem call_client_posts_once_witness :
    "Jane Doe" ≠ "" ∧
      requestsOf (handleCallClient (some ⟨"Jane Doe", ""⟩) none
          (FetchOutcome.response true 200 none)).events =
        [mkCallRequest ⟨"Jane Doe", ""⟩ none] :=
  ⟨by decide,
   (call_client_posts_once ⟨"Jane Doe", ""⟩ none
      (FetchOutcome.response true 200 none) (by decide)).1⟩

/-- Claim C3: whenever the fetch rejects or the response is not ok (and the
client_name guard passed), the handler catches the failure, shows a single
destructive Call Failed toast and does not propagate the exception. -/
theorem call_failure_caught (md : ContextMetadata) (env : Option String)
    (fo : FetchOutcome) (h : md.client_name ≠ "")
    (hfail : match fo with
             | FetchOutcome.reject _ => True
             | FetchOutcome.response ok _ _ => ok = false) :
    (∃ d, toastsOf (handleCallClient (some md) env fo).events = [⟨"Call Failed", d, true⟩]) ∧
      (handleCallClient (some md) env fo).threw = false := by
  cases fo with
  | reject err =>
      refine ⟨⟨errDescription err, ?_⟩, ?_⟩ <;> simp [handleCallClient, h, toastsOf]
  | response ok status msg =>
      cases ok with
      | true => exact absurd hfail (by simp)
      | false =>
          refine ⟨⟨"API error: " ++ toString status, ?_⟩, ?_⟩ <;>
            simp [handleCallClient, h, toastsOf]

/-- Witness for C3 at a rejected fetch. -/
theorem call_failure_caught_witness :
    "Jane Doe" ≠ "" ∧
      ((∃ d, toastsOf (handleCallClient (some ⟨"Jane Doe", "407-555-0199"⟩) none
            (FetchOutcome.reject (some "network down"))).events = [⟨"Call Failed", d, true⟩]) ∧
        (handleCallClient (some ⟨"Jane Doe", "407-555-0199"⟩) none
            (FetchOutcome.reject (some "network down"))).threw = false) :=
  ⟨by decide,
   call_failure_caught ⟨"Jane Doe", "407-555-0199"⟩ none
     (FetchOutcome.reject (some "network down")) (by decide) trivial⟩

/-- Claim C4: once the client_name guard passes, isLoading is set to true
before the request is issued and reset to false as the last step of every
completion path, and the Call Client button is disabled exactly while
isLoading is true. -/
theorem loading_flag_protocol (md : ContextMetadata) (env : Option String)
    (fo : FetchOutcome) (h : md.client_name ≠ "") :
    (∃ t, (handleCallClient (some md) env fo).events =
        [Ev.setLoading true, Ev.httpRequest (mkCallRequest md env),
         Ev.showToast t, Ev.setLoading false]) ∧
      loadingOf (handleCallClient (some md) env fo).events = [true, false] ∧
      (∀ b : Bool, ActionToolbar b =
        [⟨"Call Client", b⟩, ⟨"Send Email", false⟩, ⟨"Schedule Meeting", false⟩]) := by
  obtain ⟨-, t, hev⟩ := handleCallClient_events md env fo h
  refine ⟨⟨t, hev⟩, ?_, fun b => rfl⟩
  rw [hev]
  rfl

/-- Witness for C4 at a concrete run. -/
theorem loading_flag_protocol_witness :
    "Jane Doe" ≠ "" ∧
      loadingOf (handleCallClient (some ⟨"Jane Doe", ""⟩) (some "https://api.example.com")
          (FetchOutcome.response false 500 none)).events = [true, false] :=
  ⟨by decide,
   (loading_flag_protocol ⟨"Jane Doe", ""⟩ (some "https://api.example.com")
      (FetchOutcome.response false 500 none) (by decide)).2.1⟩

/-- Claim C5: handleSendEmail and handleScheduleMeeting each show exactly
their one toast and perform no HTTP request and no state change. -/
theorem email_calendar_stubs :
    handleSendEmail =
        [Ev.showToast ⟨"Email Draft Created", "Opening email client...", false⟩] ∧
      handleScheduleMeeting =
        [Ev.showToast ⟨"Calendar Opened", "Select a meeting time...", false⟩] ∧
      requestsOf handleSendEmail = [] ∧ requestsOf handleScheduleMeeting = [] ∧
      loadingOf handleSendEmail = [] ∧ loadingOf handleScheduleMeeting = [] :=
  ⟨rfl, rfl, rfl, rfl, rfl, rfl⟩

/-- Claim C6: when the metadata prop is null or its client_name is falsy,
handleCallClient shows only the destructive Missing Information toast and
returns: no request, no isLoading assignment, no exception. -/
theorem missing_client_info (metadata : Option ContextMetadata) (env : Option String)
    (fo : FetchOutcome)
    (h : match metadata with
         | none => True
         | some md => md.client_name = "") :
    handleCallClient metadata env fo = ⟨[Ev.showToast missingInfoToast], false⟩ ∧
      requestsOf (handleCallClient metadata env fo).events = [] ∧
      loadingOf (handleCallClient metadata env fo).events = [] := by
  cases metadata with
  | none => exact ⟨rfl, rfl, rfl⟩
  | some md =>
      have hcn : md.client_name = "" := h
      refine ⟨?_, ?_, ?_⟩ <;> simp [handleCallClient, hcn, requestsOf, loadingOf, toastsOf]

/-- Witness for C6 at a null metadata prop. -/
theorem missing_client_info_witness :
    handleCallClient none none (FetchOutcome.response true 200 none) =
      ⟨[Ev.showToast missingInfoToast], false⟩ :=
  (missing_client_info none none (FetchOutcome.response true 200 none) trivial).1

/-- Claim C8: in the request handleCallClient builds, phone falls back to
555-0100 when metadata.phone is falsy, reason is always the constant
Case review follow-up, and the URL falls back to the localhost base when
the environment variable is unset or empty. -/
theorem request_body_defaults (md : ContextMetadata) (env : Option String)
    (fo : FetchOutcome) (h : md.client_name ≠ "") :
    requestsOf (handleCallClient (some md) env fo).events = [mkCallRequest md env] ∧
      (md.phone = "" → (mkCallRequest md env).body_phone = "555-0100") ∧
      (mkCallRequest md env).body_reason = "Case review follow-up" ∧
      ((env = none ∨ env = some "") →
        (mkCallRequest md env).url = "http://localhost:8000/call_client") := by
  obtain ⟨-, t, hev⟩ := handleCallClient_events md env fo h
  refine ⟨by rw [hev]; rfl, ?_, rfl, ?_⟩
  · intro hp
    simp [mkCallRequest, jsOr, hp]
  · rintro (rfl | rfl) <;> rfl

/-- Witness for C8 at empty phone and an empty environment variable. -/
theorem request_body_defaults_witness :
    "Jane Doe" ≠ "" ∧
      ((mkCallRequest ⟨"Jane Doe", ""⟩ (some "")).body_phone = "555-0100" ∧
        (mkCallRequest ⟨"Jane Doe", ""⟩ (some "")).url = "http://localhost:8000/call_client") :=
  ⟨by decide,
   (request_body_defaults ⟨"Jane Doe", ""⟩ (some "")
      (FetchOutcome.reject none) (by decide)).2.1 rfl,
   (request_body_defaults ⟨"Jane Doe", ""⟩ (some "")
      (FetchOutcome.reject none) (by decide)).2.2.2 (Or.inr rfl)⟩

/-- A plain AI message without approval fields, used as a concrete input. -/
def msgPlain : Message :=
  ⟨"m1", Role.AI, "Hello", 0, none, none, none, none⟩

/-- A pending message that requires approval, used as a concrete input. -/
def msgPending : Message :=
  ⟨"m2", Role.AI, "Draft reply", 5, some "Intake Agent", none,
    some true, some MsgStatus.pending⟩

/-- Claim C2 counterexample: it is not the case that every rendered message
offers the approval buttons; a message without requiresApproval renders
none. -/
theorem chat_actions_not_for_every_message :
    ¬ ∀ m : Message, ((renderMessage m).approvalActions).isSome = true := by
  intro h
  exact absurd (h msgPlain) (by decide)

/-- Claim C2 (amended): every message whose requiresApproval is true and
whose status is pending is rendered with the approve, modify and reject
buttons, and clicking one of them invokes the supplied onMessageAction
callback exactly once with that message id and the chosen action. -/
theorem chat_pending_actions_invoke_once (m : Message)
    (hra : m.requiresApproval = some true) (hst : m.status = some MsgStatus.pending) :
    ∃ bs, (renderMessage m).approvalActions = some bs ∧
      bs.map ActionButton.action =
        [ActionKind.approve, ActionKind.modify, ActionKind.reject] ∧
      ∀ b ∈ bs, clickActionButton true b = [(m.id, b.action)] := by
  refine ⟨[⟨"Approve", m.id, ActionKind.approve⟩,
           ⟨"Modify", m.id, ActionKind.modify⟩,
           ⟨"Reject", m.id, ActionKind.reject⟩], ?_, rfl, ?_⟩
  · simp [renderMessage, hra, hst]
  · intro b hb
    simp only [List.mem_cons, List.not_mem_nil, or_false] at hb
    rcases hb with rfl | rfl | rfl <;> rfl

/-- Witness for the amended C2 at a concrete pending message. -/
theorem chat_pending_actions_invoke_once_witness :
    msgPending.requiresApproval = some true ∧
      msgPending.status = some MsgStatus.pending ∧
      ∃ bs, (renderMessage msgPending).approvalActions = some bs ∧
        bs.map ActionButton.action =
          [ActionKind.approve, ActionKind.modify, ActionKind.reject] ∧
        ∀ b ∈ bs, clickActionButton true b = [(msgPending.id, b.action)] :=
  ⟨rfl, rfl, chat_pending_actions_invoke_once msgPending rfl rfl⟩

/-- Claim C7: the approval button row appears exactly for pending messages
that require approval, every rendered approval button carries that message
id as its callback target, and the status badge appears exactly when a
status is present and different from pending. -/
theorem approval_rendering_invariant (m : Message) :
    (((renderMessage m).approvalActions).isSome ↔
        (m.requiresApproval = some true ∧ m.status = some MsgStatus.pending)) ∧
      (∀ bs, (renderMessage m).approvalActions = some bs →
        ∀ b ∈ bs, b.targetId = m.id) ∧
      (((renderMessage m).statusBadge).isSome ↔
        ∃ s, m.status = some s ∧ s ≠ MsgStatus.pending) := by
  refine ⟨?_, ?_, ?_⟩
  · by_cases hc : m.requiresApproval = some true ∧ m.status = some MsgStatus.pending <;>
      simp [renderMessage, hc]
  · intro bs hbs b hb
    by_cases hc : m.requiresApproval = some true ∧ m.status = some MsgStatus.pending
    · simp only [renderMessage, if_pos hc] at hbs
      cases hbs
      simp only [List.mem_cons, List.not_mem_nil, or_false] at hb
      rcases hb with rfl | rfl | rfl <;> rfl
    · simp [renderMessage, if_neg hc] at hbs
  · cases hs : m.status with
    | none => simp [renderMessage, hs]
    | some s =>
        by_cases hp : s = MsgStatus.pending
        · subst hp
          simp [renderMessage, hs]
        · simp [renderMessage, hs, hp]

/-- Claim C9: the chat renderer is a pure function of its props, renders
equal output on equal props, and shows the empty-state placeholder exactly
when the messages list is empty, with no rendered items. -/
theorem render_deterministic :
    (∀ ms ms' : List Message, ms = ms' → ChatInterface ms = ChatInterface ms') ∧
      (∀ ms : List Message, (ChatInterface ms).placeholder = true ↔ ms = []) ∧
      (ChatInterface []).items = [] := by
  refine ⟨fun ms ms' h => by rw [h], fun ms => ?_, rfl⟩
  cases ms <;> simp [ChatInterface]

/-- Witness for C9 at concrete message lists. -/
theorem render_deterministic_witness :
    ChatInterface [msgPlain] = ChatInterface [msgPlain] ∧
      ((ChatInterface [] ).placeholder = true ↔ ([] : List Message) = []) :=
  ⟨render_deterministic.1 [msgPlain] [msgPlain] rfl, render_deterministic.2.1 []⟩

end Morgan
